import Mathlib

/-
  Verification development for the drawer repository's geometric shape
  synthesis and caching engine (shape generation, shape cache, roughness
  adjustment, elbow path building, arrowhead resolution, 3D box projection,
  and the line polygon toggle).

  Shallow embedding conventions: JS numbers on the element record are
  modelled as rationals; geometry that genuinely needs square roots
  (Euclidean distances, the isometric 30 degree projection) is computed in
  the reals. JS "undefined-able" values are Option. Functions that mutate a
  passed object are modelled as returning the object's value after the call
  alongside their result.
-/

namespace Drawer

/-- Closed set of element type tags used by the shape engine. -/
inductive ElementType where
  | rectangle | diamond | ellipse | line | arrow | freedraw
  | iframe | embeddable | frame | magicframe | text | image
  | cube | rectangularPrism | selection
  deriving DecidableEq, Repr

/-- Stroke style tags. -/
inductive StrokeStyle where
  | solid | dashed | dotted
  deriving DecidableEq, Repr

/-- Roundness descriptor: a type tag and an optional explicit value. -/
structure Roundness where
  rtype : Nat
  value : Option ℚ
  deriving DecidableEq, Repr

/-- Arrowhead kinds (from the Arrowhead union type). -/
inductive Arrowhead where
  | dot | circle | circle_outline
  | triangle | triangle_outline
  | diamond | diamond_outline
  | bar | arrow
  | crowfoot_one | crowfoot_many | crowfoot_one_or_many
  deriving DecidableEq, Repr

/-- Shape3d payload carried in customData for cube / rectangularPrism. -/
structure Shape3D where
  depth : Option ℚ
  rotationX : Option ℚ
  rotationY : Option ℚ
  rotationZ : Option ℚ
  deriving DecidableEq, Repr

/-- The element record: the geometric and style fields the shape engine
reads. Points are local-coordinate pairs. -/
structure Element where
  id : Nat := 0
  etype : ElementType
  width : ℚ := 100
  height : ℚ := 100
  roughness : ℚ := 1
  roundness : Option Roundness := none
  seed : Nat := 1
  strokeColor : String := "#1e1e1e"
  backgroundColor : String := "transparent"
  fillStyle : String := "solid"
  strokeWidth : ℚ := 2
  strokeStyle : StrokeStyle := StrokeStyle.solid
  points : List (ℚ × ℚ) := []
  elbowed : Bool := false
  startArrowhead : Option Arrowhead := none
  endArrowhead : Option Arrowhead := some Arrowhead.arrow
  shape3d : Option Shape3D := none
  deriving DecidableEq, Repr

/-- Modelled from the spec: the transparency test on a color string, used by
the option builder and the iframe substitution (the isTransparent helper is
outside src). A color counts as transparent exactly when it is the literal
transparent color. -/
def isTransparent (color : String) : Bool :=
  color = "transparent"

/-- Predicate from comparisons.ts: element types whose roundness can change. -/
def canChangeRoundness (t : ElementType) : Bool :=
  t = ElementType.rectangle ||
  t = ElementType.iframe ||
  t = ElementType.embeddable ||
  t = ElementType.line ||
  t = ElementType.diamond ||
  t = ElementType.image ||
  t = ElementType.cube ||
  t = ElementType.rectangularPrism

/-- Modelled from the spec: the linear-element classification used by the
Roughness Adjuster rule (the isLinearElement type check is outside src).
Per the spec the rule applies to line, arrow and freedraw elements. -/
def isLinearElement (e : Element) : Bool :=
  e.etype = ElementType.line ||
  e.etype = ElementType.arrow ||
  e.etype = ElementType.freedraw

/-- Modelled from the spec: iframe-like classification (iframe or
embeddable), outside src. -/
def isIframeLikeElement (e : Element) : Bool :=
  e.etype = ElementType.iframe || e.etype = ElementType.embeddable

/-- Modelled from the spec: embeddable classification, outside src. -/
def isEmbeddableElement (e : Element) : Bool :=
  e.etype = ElementType.embeddable

/-- Modelled from the spec: iframe classification, outside src. -/
def isIframeElement (e : Element) : Bool :=
  e.etype = ElementType.iframe

/-- Modelled from the spec: elbow-arrow classification (an arrow constrained
to orthogonal routing), outside src; carried as the elbowed flag. -/
def isElbowArrow (e : Element) : Bool :=
  e.etype = ElementType.arrow && e.elbowed

/-- Dash pattern for dashed strokes. -/
def getDashArrayDashed (strokeWidth : ℚ) : List ℚ := [8, 8 + strokeWidth]

/-- Dash pattern for dotted strokes. -/
def getDashArrayDotted (strokeWidth : ℚ) : List ℚ := [1.5, 6 + strokeWidth]

/-- The Roughness Adjuster: dampens the requested roughness for small
elements; returns it unchanged when the element is relatively big, round
and above 15px on both sides, or a relatively long linear element. -/
def adjustRoughness (element : Element) : ℚ :=
  let roughness := element.roughness
  let maxSize := max element.width element.height
  let minSize := min element.width element.height
  if (minSize ≥ 20 ∧ maxSize ≥ 50) ∨
     (minSize ≥ 15 ∧ element.roundness.isSome ∧ canChangeRoundness element.etype) ∨
     (isLinearElement element ∧ maxSize ≥ 50) then
    roughness
  else
    min (roughness / (if maxSize < 10 then 3 else 2)) 2.5

end Drawer

namespace Drawer

/-! Shape cache model. The cache maps element identity to a stored element
shape; a stored value of none is the explicit no-geometry marker (valid
cache content, distinct from absence of any entry). The state also tracks
which elements have an entry in the dependent canvas-bitmap cache, which
generateElementShape invalidates on a miss. -/

/-- Render context passed to the cache and shape generator. -/
structure RenderConfig where
  isExporting : Bool
  canvasBackgroundColor : String
  embedsValidationStatus : Option (List (Nat × Bool))
  deriving DecidableEq, Repr

/-- Default render context when none is supplied: not exporting, white
background, no embed validation data. -/
def defaultRenderConfig : RenderConfig :=
  { isExporting := false
    canvasBackgroundColor := "#ffffff"
    embedsValidationStatus := none }

/-- Shape-cache state, parametric in the shape payload type. The cache
associates element ids with cached values; a cached value none is the
explicit null marker. -/
structure CacheState (Shape : Type) where
  cache : List (Nat × Option Shape)
  canvasCache : List Nat

/-- Cache lookup by element identity: outer none means no entry at all,
some none means the cached null marker, some (some s) a cached shape. -/
def CacheState.get {Shape : Type} (st : CacheState Shape) (e : Element) :
    Option (Option Shape) :=
  (st.cache.find? (fun p => p.1 = e.id)).map Prod.snd

/-- Cache write: stores the value (possibly the null marker) for the
element identity, replacing any previous entry. -/
def CacheState.set {Shape : Type} (st : CacheState Shape) (e : Element)
    (v : Option Shape) : CacheState Shape :=
  { st with cache := (e.id, v) :: st.cache.filter (fun p => p.1 ≠ e.id) }

/-- Result of a generateElementShape call on the cache: the returned value,
the state after the call, and whether the underlying generator ran. -/
structure GenerateResult (Shape : Type) where
  value : Option Shape
  state : CacheState Shape
  generatorInvoked : Bool

/-- ShapeCache.generateElementShape: when exporting, the cached value is
ignored so the shape is always regenerated; otherwise a present cache entry
(the null marker included) is returned as is. On a miss the dependent
canvas-bitmap entry is invalidated, the generator runs with the supplied or
default render context, and the result is stored. The generator stands in
for the low-level shape generator and is passed as a function. -/
def ShapeCache.generateElementShape {Shape : Type}
    (gen : Element → RenderConfig → Option Shape)
    (element : Element) (renderConfig : Option RenderConfig)
    (st : CacheState Shape) : GenerateResult Shape :=
  let cachedShape : Option (Option Shape) :=
    match renderConfig with
    | some cfg => if cfg.isExporting then none else st.get element
    | none => st.get element
  match cachedShape with
  | some v => { value := v, state := st, generatorInvoked := false }
  | none =>
      let st1 : CacheState Shape :=
        { st with canvasCache := st.canvasCache.filter (fun i => i ≠ element.id) }
      let shape := gen element (renderConfig.getD defaultRenderConfig)
      { value := shape
        state := st1.set element shape
        generatorInvoked := true }

end Drawer

namespace Drawer

/-! Line polygon toggle. -/

/-- Modelled from the spec: the fixed merge-distance threshold for snapping
a line's endpoints together (the LINE_POLYGON_POINT_MERGE_DISTANCE constant
is outside src; the spec fixes no value, only that it is a fixed
threshold). -/
def LINE_POLYGON_POINT_MERGE_DISTANCE : ℝ := 20

/-- Euclidean length of a displacement, as used through Math.hypot. -/
noncomputable def hypot (dx dy : ℚ) : ℝ :=
  Real.sqrt ((dx : ℝ) ^ 2 + (dy : ℝ) ^ 2)

/-- The polygon toggle: converts an open line into a closed loop (or back).
Works on a copy of the element's points. When closing, it fails (none) if
the external topology predicate rejects the point sequence; it appends a
copy of the first point when the endpoints are farther apart than the merge
distance or the sequence has fewer than 4 points, otherwise it snaps the
last point onto the first. The external canBecomePolygon predicate is
passed as a function. -/
noncomputable def toggleLinePolygonState
    (canBecomePolygon : List (ℚ × ℚ) → Bool)
    (element : Element) (nextPolygonState : Bool) :
    Option (Bool × List (ℚ × ℚ)) :=
  let updatedPoints := element.points
  if nextPolygonState then
    if ¬ canBecomePolygon element.points then none
    else
      let firstPoint := updatedPoints.headD (0, 0)
      let lastPoint := updatedPoints.getLastD (0, 0)
      let distance :=
        hypot (firstPoint.1 - lastPoint.1) (firstPoint.2 - lastPoint.2)
      if distance > LINE_POLYGON_POINT_MERGE_DISTANCE ∨
          updatedPoints.length < 4 then
        some (true, updatedPoints ++ [(firstPoint.1, firstPoint.2)])
      else
        some (true, updatedPoints.dropLast ++ [(firstPoint.1, firstPoint.2)])
  else
    some (false, updatedPoints)

/-! Iframe and embeddable stroke and background substitution. -/

/-- Substitution applied to iframe-like elements before option building:
when exporting or unvalidated and both colors are transparent, a solid
placeholder gray; otherwise, for iframe elements, transparent colors fall
back to default iframe colors. Returns a spread copy; the source never
assigns to the element itself. -/
def modifyIframeLikeForRoughOptions (element : Element) (isExporting : Bool)
    (embedsValidationStatus : Option (List (Nat × Bool))) : Element :=
  if isIframeLikeElement element ∧
      (isExporting ∨
        (isEmbeddableElement element ∧
          ¬ (embedsValidationStatus.bind
              (fun m => (m.find? (fun p => p.1 = element.id)).map Prod.snd)
                = some true))) ∧
      isTransparent element.backgroundColor ∧
      isTransparent element.strokeColor then
    { element with
      roughness := 0
      backgroundColor := "#d3d3d3"
      fillStyle := "solid" }
  else if isIframeElement element then
    { element with
      strokeColor :=
        if isTransparent element.strokeColor then "#000000"
        else element.strokeColor
      backgroundColor :=
        if isTransparent element.backgroundColor then "#f4f4f6"
        else element.backgroundColor }
  else
    element

/-- Call-level view of the substitution as it acts on the element store:
the second component is the stored element after the call. Translated from
the source, which only builds object-spread copies and performs no field
assignment on the element, so the stored element after the call is the
input element itself. -/
def modifyIframeLikeCall (element : Element) (isExporting : Bool)
    (embedsValidationStatus : Option (List (Nat × Bool))) :
    Element × Element :=
  (modifyIframeLikeForRoughOptions element isExporting embedsValidationStatus,
   element)

/-! Arrowhead geometry resolution. The style options record mirrors the
roughjs Options fields this code touches; getArrowheadShapes is modelled as
returning its drawables together with the value of the options object after
the call (the source mutates the passed object in place in some branches).
The external getArrowheadPoints resolver is passed as a function. -/

/-- Style options bag handed to the sketch generator. -/
structure SketchOptions where
  seed : Nat := 1
  strokeLineDash : Option (List ℚ) := none
  disableMultiStroke : Bool := false
  strokeWidth : ℚ := 2
  fillWeight : ℚ := 1
  hachureGap : ℚ := 8
  roughness : Option ℚ := some 1
  stroke : String := "#1e1e1e"
  preserveVertices : Bool := false
  fill : Option String := none
  fillStyle : Option String := none
  deriving DecidableEq, Repr

/-- Drawable primitives produced for arrowheads. -/
inductive ArrowheadDrawable where
  | line (x1 y1 x2 y2 : ℚ) (o : SketchOptions)
  | circle (x y diameter : ℚ) (o : SketchOptions)
  | polygon (pts : List (ℚ × ℚ)) (o : SketchOptions)
  deriving DecidableEq, Repr

/-- Inner helper for the single crowfoot bar: draws the perpendicular bar
from the third to the fourth resolved point. -/
def generateCrowfootOne (arrowheadPoints : Option (List ℚ))
    (options : SketchOptions) : List ArrowheadDrawable :=
  match arrowheadPoints with
  | none => []
  | some pts =>
      [ArrowheadDrawable.line (pts.getD 2 0) (pts.getD 3 0)
        (pts.getD 4 0) (pts.getD 5 0) options]

/-- The Arrowhead Geometry Resolver. Returns the drawables for the given
end together with the options object as it stands after the call: the
wing-family default branch sets the dash (tightened dots for dotted body,
removed otherwise) and clamps roughness in place; the dot/circle and
triangle/diamond branches remove the dash in place but clamp roughness only
on the per-call copy passed to the generator; crowfoot_one touches nothing. -/
def getArrowheadShapes
    (getArrowheadPoints : Element → String → Arrowhead → Option (List ℚ))
    (element : Element) (position : String) (arrowhead : Arrowhead)
    (options : SketchOptions) (canvasBackgroundColor : String) :
    List ArrowheadDrawable × SketchOptions :=
  match getArrowheadPoints element position arrowhead with
  | none => ([], options)
  | some arrowheadPoints =>
    match arrowhead with
    | Arrowhead.dot | Arrowhead.circle | Arrowhead.circle_outline =>
        let x := arrowheadPoints.getD 0 0
        let y := arrowheadPoints.getD 1 0
        let diameter := arrowheadPoints.getD 2 0
        -- always use solid stroke for arrowhead
        let options1 := { options with strokeLineDash := none }
        ([ArrowheadDrawable.circle x y diameter
            { options1 with
              fill := some (if arrowhead = Arrowhead.circle_outline
                then canvasBackgroundColor else element.strokeColor)
              fillStyle := some "solid"
              stroke := element.strokeColor
              roughness := some (min 0.5 (options1.roughness.getD 0)) }],
         options1)
    | Arrowhead.triangle | Arrowhead.triangle_outline =>
        let x := arrowheadPoints.getD 0 0
        let y := arrowheadPoints.getD 1 0
        let x2 := arrowheadPoints.getD 2 0
        let y2 := arrowheadPoints.getD 3 0
        let x3 := arrowheadPoints.getD 4 0
        let y3 := arrowheadPoints.getD 5 0
        let options1 := { options with strokeLineDash := none }
        ([ArrowheadDrawable.polygon [(x, y), (x2, y2), (x3, y3), (x, y)]
            { options1 with
              fill := some (if arrowhead = Arrowhead.triangle_outline
                then canvasBackgroundColor else element.strokeColor)
              fillStyle := some "solid"
              roughness := some (min 1 (options1.roughness.getD 0)) }],
         options1)
    | Arrowhead.diamond | Arrowhead.diamond_outline =>
        let x := arrowheadPoints.getD 0 0
        let y := arrowheadPoints.getD 1 0
        let x2 := arrowheadPoints.getD 2 0
        let y2 := arrowheadPoints.getD 3 0
        let x3 := arrowheadPoints.getD 4 0
        let y3 := arrowheadPoints.getD 5 0
        let x4 := arrowheadPoints.getD 6 0
        let y4 := arrowheadPoints.getD 7 0
        let options1 := { options with strokeLineDash := none }
        ([ArrowheadDrawable.polygon
            [(x, y), (x2, y2), (x3, y3), (x4, y4), (x, y)]
            { options1 with
              fill := some (if arrowhead = Arrowhead.diamond_outline
                then canvasBackgroundColor else element.strokeColor)
              fillStyle := some "solid"
              roughness := some (min 1 (options1.roughness.getD 0)) }],
         options1)
    | Arrowhead.crowfoot_one =>
        (generateCrowfootOne (some arrowheadPoints) options, options)
    | _ =>
        -- bar, arrow, crowfoot_many, crowfoot_one_or_many
        let x2 := arrowheadPoints.getD 0 0
        let y2 := arrowheadPoints.getD 1 0
        let x3 := arrowheadPoints.getD 2 0
        let y3 := arrowheadPoints.getD 3 0
        let x4 := arrowheadPoints.getD 4 0
        let y4 := arrowheadPoints.getD 5 0
        let options1 :=
          if element.strokeStyle = StrokeStyle.dotted then
            -- for dotted arrow caps, reduce the gap to make it more legible
            let dash := getDashArrayDotted (element.strokeWidth - 1)
            { options with
              strokeLineDash := some [dash.getD 0 0, dash.getD 1 0 - 1] }
          else
            { options with strokeLineDash := none }
        let options2 :=
          { options1 with roughness := some (min 1 (options1.roughness.getD 0)) }
        (ArrowheadDrawable.line x3 y3 x2 y2 options2 ::
          ArrowheadDrawable.line x4 y4 x2 y2 options2 ::
          (if arrowhead = Arrowhead.crowfoot_one_or_many then
            generateCrowfootOne
              (getArrowheadPoints element position Arrowhead.crowfoot_one)
              options2
          else []),
         options2)

end Drawer

namespace Drawer

/-! 3D box projector (cube / rectangularPrism). Geometry is computed in the
reals because the isometric projection uses the square root of 3. -/

/-- Structured path commands standing in for the SVG path strings the
source builds (move, line-to, quadratic curve, close). -/
inductive PathCmd where
  | move (x y : ℝ)
  | lineTo (x y : ℝ)
  | quad (cx cy x y : ℝ)
  | close

/-- Stroke options built for the 3D box edges and rounded face outlines. -/
structure Opts3D where
  seed : Nat
  strokeWidth : ℚ
  stroke : String
  roughness : ℚ
  strokeLineDash : Option (List ℚ)
  disableMultiStroke : Bool

/-- Fill options built for the 3D box face polygons. -/
structure FaceFillOptions where
  seed : Nat
  roughness : ℚ
  fill : String
  fillStyle : String
  fillWeight : ℚ
  hachureGap : ℚ
  stroke : String
  strokeWidth : ℚ

/-- Drawable primitives produced for the 3D box: stroked edge lines,
rounded-corner face paths and filled face polygons. -/
inductive BoxPrim where
  | line (x1 y1 x2 y2 : ℝ) (o : Opts3D)
  | path (cmds : List PathCmd) (o : Opts3D)
  | polygon (pts : List (ℝ × ℝ)) (o : FaceFillOptions)

/-- List indexing with the zero point as the out-of-range default (indices
used are always in range). -/
def vget (vs : List (ℝ × ℝ)) (i : Nat) : ℝ × ℝ := vs.getD i (0, 0)

/-- The 12 box edges as vertex-index pairs: bottom face, top face, and the
four vertical connecting edges. -/
def box3DEdges : List (Nat × Nat) :=
  [(0, 1), (1, 2), (2, 3), (3, 0),
   (4, 5), (5, 6), (6, 7), (7, 4),
   (0, 4), (1, 5), (2, 6), (3, 7)]

/-- Modelled from the spec: the corner-radius helper mapping a roundness
descriptor and a reference size to a radius (outside src). The claims are
settled on elements without a roundness descriptor, where the projector
uses radius 0 without consulting this helper; the model returns a quarter
of the reference size when a descriptor is present. -/
noncomputable def getCornerRadius (size : ℝ) (element : Element) : ℝ :=
  if element.roundness.isSome then size / 4 else 0

/-- The 8 projected vertices of the isometric box, in index order v0..v7,
translated from the vertex block of the 3D shape generator: depth is
clamped to 0.8 of the largest depth that still fits, offsets follow the
30 degree isometric scales, and the vertex layout branches on the sign of
the effective depth. -/
noncomputable def box3DCenteredVertices (w h d : ℝ) : List (ℝ × ℝ) :=
  let xScale : ℝ := Real.sqrt 3 / 2
  let yScale : ℝ := 0.5
  let maxPossibleDepthFromWidth := w / xScale
  let maxPossibleDepthFromHeight := h / yScale
  let maxPossibleDepth := min maxPossibleDepthFromWidth maxPossibleDepthFromHeight
  let maxAllowedDepth := maxPossibleDepth * 0.8
  let effectiveDepth := max (-maxAllowedDepth) (min maxAllowedDepth d)
  let depthOffsetX := |effectiveDepth| * xScale
  let depthOffsetY := |effectiveDepth| * yScale
  let faceWidth := w - depthOffsetX
  let faceHeight := h - depthOffsetY
  let totalWidth := faceWidth + depthOffsetX
  let totalHeight := faceHeight + depthOffsetY
  let offsetX := (w - totalWidth) / 2
  let offsetY := (h - totalHeight) / 2
  if effectiveDepth ≥ 0 then
    -- positive depth: front face bottom-left, back face shifted up-right
    [(offsetX, offsetY + faceHeight + depthOffsetY),
     (offsetX + faceWidth, offsetY + faceHeight + depthOffsetY),
     (offsetX + faceWidth + depthOffsetX, offsetY + faceHeight),
     (offsetX + depthOffsetX, offsetY + faceHeight),
     (offsetX, offsetY + depthOffsetY),
     (offsetX + faceWidth, offsetY + depthOffsetY),
     (offsetX + faceWidth + depthOffsetX, offsetY),
     (offsetX + depthOffsetX, offsetY)]
  else
    -- negative depth: front face top-right, back face down-left
    [(offsetX + depthOffsetX, offsetY + faceHeight),
     (offsetX + faceWidth + depthOffsetX, offsetY + faceHeight),
     (offsetX + faceWidth, offsetY + faceHeight + depthOffsetY),
     (offsetX, offsetY + faceHeight + depthOffsetY),
     (offsetX + depthOffsetX, offsetY),
     (offsetX + faceWidth + depthOffsetX, offsetY),
     (offsetX + faceWidth, offsetY + depthOffsetY),
     (offsetX, offsetY + depthOffsetY)]

/-- Stroke width with the falsy-zero default of the source. -/
def elStrokeWidth (element : Element) : ℚ :=
  if element.strokeWidth = 0 then 2 else element.strokeWidth

/-- Stroke options for the 3D box edge and outline drawables. -/
def box3DOptions (element : Element) : Opts3D :=
  { seed := element.seed
    strokeWidth :=
      if element.strokeStyle ≠ StrokeStyle.solid then elStrokeWidth element + 0.5
      else elStrokeWidth element
    stroke :=
      if element.strokeColor = "" then "#000000" else element.strokeColor
    roughness := adjustRoughness element
    strokeLineDash :=
      if element.strokeStyle = StrokeStyle.dashed then
        some (getDashArrayDashed (elStrokeWidth element))
      else if element.strokeStyle = StrokeStyle.dotted then
        some (getDashArrayDotted (elStrokeWidth element))
      else none
    disableMultiStroke := element.strokeStyle ≠ StrokeStyle.solid }

/-- Fill options for the 3D box face polygons: no stroke on faces, the
edges are drawn separately. -/
def box3DFaceFillOptions (element : Element) : FaceFillOptions :=
  { seed := element.seed
    roughness := adjustRoughness element
    fill := element.backgroundColor
    fillStyle := if element.fillStyle = "" then "solid" else element.fillStyle
    fillWeight := elStrokeWidth element / 2
    hachureGap := elStrokeWidth element * 4
    stroke := "none"
    strokeWidth := 0 }

/-- Rounded-corner closed path for one face: radius capped at a third of
each adjacent edge, straight runs between inset points and quadratic
corner turns through the vertices. -/
noncomputable def createRoundedFacePath (cornerRadius : ℝ)
    (v0 v1 v2 v3 : ℝ × ℝ) : List PathCmd :=
  let hyp01 := Real.sqrt ((v1.1 - v0.1) ^ 2 + (v1.2 - v0.2) ^ 2)
  let hyp12 := Real.sqrt ((v2.1 - v1.1) ^ 2 + (v2.2 - v1.2) ^ 2)
  let hyp23 := Real.sqrt ((v3.1 - v2.1) ^ 2 + (v3.2 - v2.2) ^ 2)
  let hyp30 := Real.sqrt ((v0.1 - v3.1) ^ 2 + (v0.2 - v3.2) ^ 2)
  let r := min cornerRadius
    (min (hyp01 / 3) (min (hyp12 / 3) (min (hyp23 / 3) (hyp30 / 3))))
  let dir01 := ((v1.1 - v0.1) / hyp01, (v1.2 - v0.2) / hyp01)
  let dir12 := ((v2.1 - v1.1) / hyp12, (v2.2 - v1.2) / hyp12)
  let dir23 := ((v3.1 - v2.1) / hyp23, (v3.2 - v2.2) / hyp23)
  let dir30 := ((v0.1 - v3.1) / hyp30, (v0.2 - v3.2) / hyp30)
  [PathCmd.move (v0.1 + dir01.1 * r) (v0.2 + dir01.2 * r),
   PathCmd.lineTo (v1.1 - dir01.1 * r) (v1.2 - dir01.2 * r),
   PathCmd.quad v1.1 v1.2 (v1.1 + dir12.1 * r) (v1.2 + dir12.2 * r),
   PathCmd.lineTo (v2.1 - dir12.1 * r) (v2.2 - dir12.2 * r),
   PathCmd.quad v2.1 v2.2 (v2.1 + dir23.1 * r) (v2.2 + dir23.2 * r),
   PathCmd.lineTo (v3.1 - dir23.1 * r) (v3.2 - dir23.2 * r),
   PathCmd.quad v3.1 v3.2 (v3.1 + dir30.1 * r) (v3.2 + dir30.2 * r),
   PathCmd.lineTo (v0.1 - dir30.1 * r) (v0.2 - dir30.2 * r),
   PathCmd.quad v0.1 v0.2 (v0.1 + dir01.1 * r) (v0.2 + dir01.2 * r),
   PathCmd.close]

/-- The 3D shape generator for cube / rectangularPrism elements. Depth
falls back (through the falsy-zero rule) to the width for cubes and 0.6 of
the width for prisms; edges are emitted as lines (or the three visible
faces as rounded paths when a positive corner radius applies); when a
non-empty, non-transparent background is set, the six face polygons are
prepended one by one, mirroring the successive unshift calls of the
source (each one pushes the earlier prepends towards the back). -/
noncomputable def generate3DRectangularShapes (element : Element)
    (isCube : Bool) : List BoxPrim :=
  let fallbackDepth : ℚ := if isCube then element.width else element.width * 0.6
  let depth : ℚ :=
    match element.shape3d.bind Shape3D.depth with
    | some v => if v = 0 then fallbackDepth else v
    | none => fallbackDepth
  let w : ℝ := (element.width : ℝ)
  let h : ℝ := (element.height : ℝ)
  let d : ℝ := (depth : ℝ)
  let xScale : ℝ := Real.sqrt 3 / 2
  let yScale : ℝ := 0.5
  let maxPossibleDepth := min (w / xScale) (h / yScale)
  let maxAllowedDepth := maxPossibleDepth * 0.8
  let effectiveDepth := max (-maxAllowedDepth) (min maxAllowedDepth d)
  let depthOffsetX := |effectiveDepth| * xScale
  let depthOffsetY := |effectiveDepth| * yScale
  let faceWidth := w - depthOffsetX
  let faceHeight := h - depthOffsetY
  let centeredVertices := box3DCenteredVertices w h d
  let options := box3DOptions element
  let refSize := min faceWidth (min faceHeight (|effectiveDepth| * 0.5))
  let maxPossibleRadius := refSize / 2
  let cornerRadius : ℝ :=
    match element.roundness with
    | some rd =>
        match rd.value with
        | some v => min (v : ℝ) maxPossibleRadius
        | none => getCornerRadius refSize element
    | none => 0
  let shapes : List BoxPrim :=
    if cornerRadius > 0 then
      [BoxPrim.path (createRoundedFacePath cornerRadius
          (vget centeredVertices 0) (vget centeredVertices 1)
          (vget centeredVertices 5) (vget centeredVertices 4)) options,
       BoxPrim.path (createRoundedFacePath cornerRadius
          (vget centeredVertices 4) (vget centeredVertices 5)
          (vget centeredVertices 6) (vget centeredVertices 7)) options,
       BoxPrim.path (createRoundedFacePath cornerRadius
          (vget centeredVertices 1) (vget centeredVertices 2)
          (vget centeredVertices 6) (vget centeredVertices 5)) options]
    else
      box3DEdges.map (fun p =>
        BoxPrim.line (vget centeredVertices p.1).1 (vget centeredVertices p.1).2
          (vget centeredVertices p.2).1 (vget centeredVertices p.2).2 options)
  if element.backgroundColor ≠ "" ∧ ¬ isTransparent element.backgroundColor then
    let faceFillOptions := box3DFaceFillOptions element
    let frontFace := BoxPrim.polygon
      [vget centeredVertices 0, vget centeredVertices 1,
       vget centeredVertices 5, vget centeredVertices 4] faceFillOptions
    let backFace := BoxPrim.polygon
      [vget centeredVertices 3, vget centeredVertices 7,
       vget centeredVertices 6, vget centeredVertices 2] faceFillOptions
    let leftFace := BoxPrim.polygon
      [vget centeredVertices 0, vget centeredVertices 4,
       vget centeredVertices 7, vget centeredVertices 3] faceFillOptions
    let rightFace := BoxPrim.polygon
      [vget centeredVertices 1, vget centeredVertices 2,
       vget centeredVertices 6, vget centeredVertices 5] faceFillOptions
    let topFace := BoxPrim.polygon
      [vget centeredVertices 4, vget centeredVertices 5,
       vget centeredVertices 6, vget centeredVertices 7] faceFillOptions
    let bottomFace := BoxPrim.polygon
      [vget centeredVertices 0, vget centeredVertices 3,
       vget centeredVertices 2, vget centeredVertices 1] faceFillOptions
    let shapes1 := backFace :: shapes
    let shapes2 := bottomFace :: shapes1
    let shapes3 := leftFace :: shapes2
    let shapes4 := rightFace :: shapes3
    let shapes5 := frontFace :: shapes4
    let shapes6 := topFace :: shapes5
    shapes6
  else
    shapes

/-! Elbow path builder and the extreme-coordinate sanity check of the
elbow-arrow branch of the shape generator. -/

/-- Euclidean distance between two points (the pointDistance utility, an
external 2D point capability per the spec). -/
noncomputable def pointDistance (a b : ℝ × ℝ) : ℝ :=
  Real.sqrt ((b.1 - a.1) ^ 2 + (b.2 - a.2) ^ 2)

/-- Modelled from the spec: whether the heading from q to p is horizontal,
determined by the dominant axis of the displacement (the heading helper is
outside src). -/
def headingForPointIsHorizontal (p q : ℝ × ℝ) : Prop :=
  |p.1 - q.1| > |p.2 - q.2|

noncomputable instance (p q : ℝ × ℝ) :
    Decidable (headingForPointIsHorizontal p q) := by
  unfold headingForPointIsHorizontal
  infer_instance

/-- One interior vertex of the elbow polyline: the inset point along the
incoming segment, the vertex itself, and the inset point along the
outgoing segment, with the corner inset clamped by the radius and half of
each adjacent segment. Translated from the loop body of the elbow shape
builder. -/
noncomputable def elbowCornerSubpoints (radius : ℝ)
    (prev point next : ℝ × ℝ) : List (ℝ × ℝ) :=
  let corner := min radius
    (min (pointDistance point next / 2) (pointDistance point prev / 2))
  let before :=
    if headingForPointIsHorizontal point prev then
      if prev.1 < point.1 then (point.1 - corner, point.2)
      else (point.1 + corner, point.2)
    else if prev.2 < point.2 then (point.1, point.2 - corner)
    else (point.1, point.2 + corner)
  let after :=
    if headingForPointIsHorizontal next point then
      if next.1 < point.1 then (point.1 - corner, point.2)
      else (point.1 + corner, point.2)
    else if next.2 < point.2 then (point.1, point.2 - corner)
    else (point.1, point.2 + corner)
  [before, point, after]

/-- All subpoints of the elbow polyline: the corner triples of every
interior vertex, in order. -/
noncomputable def elbowSubpoints (radius : ℝ) (points : List (ℝ × ℝ)) :
    List (ℝ × ℝ) :=
  (points.zip ((points.drop 1).zip (points.drop 2))).flatMap
    (fun t => elbowCornerSubpoints radius t.1 t.2.1 t.2.2)

/-- Path commands for the successive corner triples: a straight segment to
the incoming inset point and a quadratic turn through the vertex to the
outgoing inset point, consuming the subpoints three at a time. -/
noncomputable def elbowChunkCommands : List (ℝ × ℝ) → List PathCmd
  | a :: b :: c :: rest =>
      PathCmd.lineTo a.1 a.2 :: PathCmd.quad b.1 b.2 c.1 c.2 ::
        elbowChunkCommands rest
  | _ => []

/-- The Elbow Path Builder: a move to the first point, the corner commands
for every interior vertex, and a final straight segment to the last
point. -/
noncomputable def generateElbowArrowShape (points : List (ℝ × ℝ))
    (radius : ℝ) : List PathCmd :=
  let subpoints := elbowSubpoints radius points
  PathCmd.move (points.headD (0, 0)).1 (points.headD (0, 0)).2 ::
    (elbowChunkCommands subpoints ++
      [PathCmd.lineTo (points.getLastD (0, 0)).1 (points.getLastD (0, 0)).2])

/-- The elbow-arrow body branch of the shape generator: empty point
sequences are replaced by a single origin point, then the points are
sanity-checked against the extreme-coordinate bound of one million; beyond
the bound the arrow body is empty and the diagnostic is logged (the second
component), otherwise the body is the single path drawable built by the
elbow path builder with radius 16. -/
noncomputable def generateElbowArrowBody (element : Element) :
    List (List PathCmd) × Bool :=
  let points :=
    if element.points.length ≠ 0 then element.points else [((0 : ℚ), (0 : ℚ))]
  if ¬ (points.all (fun p =>
      decide (|p.1| ≤ 1000000) && decide (|p.2| ≤ 1000000))) then
    ([], true)
  else
    ([generateElbowArrowShape
        (points.map (fun p => ((p.1 : ℝ), (p.2 : ℝ)))) 16], false)

/-- A concrete cube element: 100 wide, 80 tall, requested depth 40, filled
light-blue background, no roundness. -/
def sampleCube : Element :=
  { etype := ElementType.cube
    width := 100
    height := 80
    backgroundColor := "#a5d8ff"
    shape3d := some
      { depth := some 40, rotationX := none, rotationY := none,
        rotationZ := none } }

/-- Projected vertices of the sample cube. -/
noncomputable def sampleCubeVertices : List (ℝ × ℝ) :=
  box3DCenteredVertices ((100 : ℚ) : ℝ) ((80 : ℚ) : ℝ) ((40 : ℚ) : ℝ)

end Drawer

namespace Drawer

/-- C3: the Roughness Adjuster returns the input roughness unchanged under
any of the three preservation conditions; otherwise it returns the dampened
value min (roughness / (3 or 2)) 2.5; and for a 5 by 5 element the output
is at most a third of the input and at most 2.5. -/
theorem adjustRoughness_spec (e : Element) :
    ((min e.width e.height ≥ 20 ∧ max e.width e.height ≥ 50) ∨
     (min e.width e.height ≥ 15 ∧ e.roundness.isSome ∧
        canChangeRoundness e.etype) ∨
     ((e.etype = ElementType.line ∨ e.etype = ElementType.arrow ∨
        e.etype = ElementType.freedraw) ∧ max e.width e.height ≥ 50) →
      adjustRoughness e = e.roughness) ∧
    (¬ ((min e.width e.height ≥ 20 ∧ max e.width e.height ≥ 50) ∨
     (min e.width e.height ≥ 15 ∧ e.roundness.isSome ∧
        canChangeRoundness e.etype) ∨
     ((e.etype = ElementType.line ∨ e.etype = ElementType.arrow ∨
        e.etype = ElementType.freedraw) ∧ max e.width e.height ≥ 50)) →
      adjustRoughness e =
        min (e.roughness / (if max e.width e.height < 10 then 3 else 2)) 2.5) ∧
    (e.width = 5 → e.height = 5 →
      adjustRoughness e ≤ e.roughness / 3 ∧ adjustRoughness e ≤ 2.5) := by
  have hlin : (isLinearElement e = true) ↔
      (e.etype = ElementType.line ∨ e.etype = ElementType.arrow ∨
        e.etype = ElementType.freedraw) := by
    simp [isLinearElement, Bool.or_eq_true, decide_eq_true_eq, or_assoc]
  refine ⟨?_, ?_, ?_⟩
  · intro h
    rw [adjustRoughness]
    simp only [hlin]
    rw [if_pos h]
  · intro h
    rw [adjustRoughness]
    simp only [hlin]
    rw [if_neg h]
  · intro hw hh
    have hcond : ¬ ((min e.width e.height ≥ 20 ∧ max e.width e.height ≥ 50) ∨
        (min e.width e.height ≥ 15 ∧ e.roundness.isSome ∧
          canChangeRoundness e.etype) ∨
        (isLinearElement e ∧ max e.width e.height ≥ 50)) := by
      rw [hw, hh]
      norm_num
    have hmax : max e.width e.height < 10 := by rw [hw, hh]; norm_num
    have : adjustRoughness e = min (e.roughness / 3) 2.5 := by
      rw [adjustRoughness]
      rw [if_neg hcond, if_pos hmax]
    rw [this]
    constructor
    · exact min_le_left _ _
    · exact min_le_right _ _

/-- C3 witness: a 5 by 5 rectangle with roughness 9 is dampened to at most
3 and at most 2.5, and a 60 by 60 rectangle keeps its roughness. -/
theorem adjustRoughness_spec_witness :
    (adjustRoughness
        { etype := ElementType.rectangle, width := 5, height := 5,
          roughness := 9 } ≤ 9 / 3) ∧
    (adjustRoughness
        { etype := ElementType.rectangle, width := 60, height := 60,
          roughness := 1 } = 1) := by
  constructor
  · exact ((adjustRoughness_spec _).2.2 rfl rfl).1
  · exact (adjustRoughness_spec _).1 (Or.inl (by norm_num))

/-- C1: cache discipline of ShapeCache.generateElementShape. With an
exporting render context the generator is always invoked, even when an
entry is cached. With a null or non-exporting context, a present cache
entry (the explicit null marker included) is returned unchanged, the state
is untouched, and the generator is not invoked. -/
theorem generateElementShape_cache_spec {Shape : Type}
    (gen : Element → RenderConfig → Option Shape)
    (e : Element) (cfg : Option RenderConfig) (st : CacheState Shape) :
    (∀ c, cfg = some c → c.isExporting = true →
      (ShapeCache.generateElementShape gen e cfg st).generatorInvoked = true) ∧
    ((cfg = none ∨ ∃ c, cfg = some c ∧ c.isExporting = false) →
      ∀ v, st.get e = some v →
        (ShapeCache.generateElementShape gen e cfg st).value = v ∧
        (ShapeCache.generateElementShape gen e cfg st).state = st ∧
        (ShapeCache.generateElementShape gen e cfg st).generatorInvoked = false) := by
  constructor
  · intro c hc hexp
    subst hc
    simp [ShapeCache.generateElementShape, hexp]
  · intro hcfg v hv
    rcases hcfg with hnone | ⟨c, hc, hexp⟩
    · subst hnone
      simp [ShapeCache.generateElementShape, hv]
    · subst hc
      simp [ShapeCache.generateElementShape, hexp, hv]

/-- C1 witness: with shapes as naturals, store the explicit null marker for
an element, then a non-exporting call returns the marker without invoking
the generator, and an exporting call invokes the generator even though the
entry is cached. -/
theorem generateElementShape_cache_spec_witness :
    (ShapeCache.generateElementShape (fun _ _ => some 42)
        { id := 5, etype := ElementType.text }
        (some { isExporting := true, canvasBackgroundColor := "#ffffff",
                embedsValidationStatus := none })
        { cache := [(5, none)], canvasCache := [] }).generatorInvoked
        = true ∧
    ((ShapeCache.generateElementShape (fun _ _ => some 42)
        { id := 5, etype := ElementType.text }
        none { cache := [(5, none)], canvasCache := [] }).value = none ∧
      (ShapeCache.generateElementShape (fun _ _ => some 42)
        { id := 5, etype := ElementType.text }
        none { cache := [(5, none)], canvasCache := [] }).state =
        { cache := [(5, none)], canvasCache := [] } ∧
      (ShapeCache.generateElementShape (fun _ _ => some 42)
        { id := 5, etype := ElementType.text }
        none { cache := [(5, none)], canvasCache := [] }).generatorInvoked
        = false) := by
  refine ⟨?_, ?_⟩
  · exact (generateElementShape_cache_spec (fun _ _ => some 42)
      { id := 5, etype := ElementType.text } _ _).1 _ rfl rfl
  · exact (generateElementShape_cache_spec (fun _ _ => some 42)
      { id := 5, etype := ElementType.text } none
      { cache := [(5, none)], canvasCache := [] }).2 (Or.inl rfl) none (by decide)

/-- C7: toggling to a polygon returns none exactly when the external
topology predicate rejects the points; otherwise, when the endpoint
separation exceeds the merge distance or there are fewer than 4 points, a
copy of the first point is appended (length grows by one), and in the
remaining cases the last point is replaced by a copy of the first point
(length unchanged). -/
theorem toggleLinePolygonState_toPolygon_spec
    (canPoly : List (ℚ × ℚ) → Bool) (e : Element) (hne : e.points ≠ []) :
    (toggleLinePolygonState canPoly e true = none ↔ canPoly e.points = false) ∧
    (canPoly e.points = true →
      (hypot ((e.points.headD (0, 0)).1 - (e.points.getLastD (0, 0)).1)
          ((e.points.headD (0, 0)).2 - (e.points.getLastD (0, 0)).2) >
            LINE_POLYGON_POINT_MERGE_DISTANCE ∨ e.points.length < 4 →
        toggleLinePolygonState canPoly e true =
          some (true, e.points ++ [e.points.headD (0, 0)]) ∧
        ∀ r, toggleLinePolygonState canPoly e true = some r →
          r.2.length = e.points.length + 1)) ∧
    (canPoly e.points = true →
      ¬ (hypot ((e.points.headD (0, 0)).1 - (e.points.getLastD (0, 0)).1)
          ((e.points.headD (0, 0)).2 - (e.points.getLastD (0, 0)).2) >
            LINE_POLYGON_POINT_MERGE_DISTANCE ∨ e.points.length < 4) →
        toggleLinePolygonState canPoly e true =
          some (true, e.points.dropLast ++ [e.points.headD (0, 0)]) ∧
        ∀ r, toggleLinePolygonState canPoly e true = some r →
          r.2.length = e.points.length) := by
  refine ⟨?_, ?_, ?_⟩
  · constructor
    · intro h
      cases hcp : canPoly e.points with
      | false => rfl
      | true =>
        exfalso
        rw [toggleLinePolygonState] at h
        rw [if_pos rfl, if_neg (by simp [hcp])] at h
        simp only [gt_iff_lt] at h
        split at h <;> simp at h
    · intro h
      rw [toggleLinePolygonState]
      simp [h]
  · intro hcp hcond
    have heq : toggleLinePolygonState canPoly e true =
        some (true, e.points ++ [e.points.headD (0, 0)]) := by
      rw [toggleLinePolygonState]
      simp only [hcp, not_true_eq_false, if_false, ite_true]
      rw [if_pos hcond]
    refine ⟨heq, ?_⟩
    intro r hr
    rw [heq] at hr
    cases hr
    simp
  · intro hcp hcond
    have heq : toggleLinePolygonState canPoly e true =
        some (true, e.points.dropLast ++ [e.points.headD (0, 0)]) := by
      rw [toggleLinePolygonState]
      simp only [hcp, not_true_eq_false, if_false, ite_true]
      rw [if_neg hcond]
    refine ⟨heq, ?_⟩
    intro r hr
    rw [heq] at hr
    cases hr
    have hpos : 0 < e.points.length := List.length_pos.mpr hne
    simp
    omega

/-- C7 witness: a 3-point open line whose endpoints are far apart is closed
by appending one point, and a rejected sequence yields none. -/
theorem toggleLinePolygonState_toPolygon_spec_witness :
    (toggleLinePolygonState (fun _ => true)
        { etype := ElementType.line,
          points := [(0, 0), (30, 0), (30, 30)] } true =
      some (true, [(0, 0), (30, 0), (30, 30), (0, 0)])) ∧
    (toggleLinePolygonState (fun _ => false)
        { etype := ElementType.line,
          points := [(0, 0), (30, 0), (30, 30)] } true = none) := by
  constructor
  · exact (((toggleLinePolygonState_toPolygon_spec (fun _ => true)
      { etype := ElementType.line, points := [(0, 0), (30, 0), (30, 30)] }
      (by decide)).2.1 rfl) (Or.inr (by decide))).1
  · exact (toggleLinePolygonState_toPolygon_spec (fun _ => false)
      { etype := ElementType.line, points := [(0, 0), (30, 0), (30, 30)] }
      (by decide)).1.mpr rfl

/-- C10: the polygon toggle operates on a copy of the element's points (the
embedded call returns the element's points unchanged as its data source),
and toggling a line to the non-polygon state always succeeds, returning the
points of the element unchanged with the polygon flag false. -/
theorem toggleLinePolygonState_off_spec
    (canPoly : List (ℚ × ℚ) → Bool) (e : Element) :
    toggleLinePolygonState canPoly e false = some (false, e.points) := by
  rw [toggleLinePolygonState]
  simp

/-- C9: the iframe and embeddable substitution leaves the stored element
unchanged (the call returns the input element as the post-call store), and
the substituted copy fed to option building agrees with the element on all
fields other than the substituted stroke color, background color, fill
style and roughness. -/
theorem modifyIframeLike_frame_spec (e : Element) (isExporting : Bool)
    (st : Option (List (Nat × Bool))) :
    (modifyIframeLikeCall e isExporting st).2 = e ∧
    ((modifyIframeLikeCall e isExporting st).1.id = e.id ∧
     (modifyIframeLikeCall e isExporting st).1.etype = e.etype ∧
     (modifyIframeLikeCall e isExporting st).1.width = e.width ∧
     (modifyIframeLikeCall e isExporting st).1.height = e.height ∧
     (modifyIframeLikeCall e isExporting st).1.seed = e.seed ∧
     (modifyIframeLikeCall e isExporting st).1.strokeWidth = e.strokeWidth ∧
     (modifyIframeLikeCall e isExporting st).1.strokeStyle = e.strokeStyle ∧
     (modifyIframeLikeCall e isExporting st).1.roundness = e.roundness ∧
     (modifyIframeLikeCall e isExporting st).1.points = e.points) := by
  refine ⟨rfl, ?_⟩
  rw [modifyIframeLikeCall, modifyIframeLikeForRoughOptions]
  split
  · exact ⟨rfl, rfl, rfl, rfl, rfl, rfl, rfl, rfl, rfl⟩
  · split
    · exact ⟨rfl, rfl, rfl, rfl, rfl, rfl, rfl, rfl, rfl⟩
    · exact ⟨rfl, rfl, rfl, rfl, rfl, rfl, rfl, rfl, rfl⟩

/-- C5 counterexample: the claim says every arrowhead kind leaves the
passed options object changed after the call; the crowfoot_one variant
performs no mutation at all, so with resolvable points the options after
the call equal the options before. -/
theorem getArrowheadShapes_mutation_counterexample :
    (getArrowheadShapes (fun _ _ _ => some [0, 0, 10, 10, 20, 20, 30, 30])
      { etype := ElementType.arrow } "end" Arrowhead.crowfoot_one
      { } "#ffffff").2 = ({ } : SketchOptions) := by
  rfl

/-- C5 amended: only the wing-family variants (bar, arrow, crowfoot_many,
crowfoot_one_or_many) mutate the options object for the call, clearing the
dash (or replacing it with a tightened dot pattern for a dotted body) and
clamping roughness to at most 1 in place; the dot/circle and
triangle/diamond variants clear the dash on the passed options but clamp
roughness only on a per-call copy; crowfoot_one leaves the options object
unchanged. -/
theorem getArrowheadShapes_mutation_amended
    (resolve : Element → String → Arrowhead → Option (List ℚ))
    (e : Element) (pos : String) (o : SketchOptions) (cbg : String)
    (ah : Arrowhead) (pts : List ℚ) (h : resolve e pos ah = some pts) :
    ((ah = Arrowhead.bar ∨ ah = Arrowhead.arrow ∨
      ah = Arrowhead.crowfoot_many ∨ ah = Arrowhead.crowfoot_one_or_many) →
      (getArrowheadShapes resolve e pos ah o cbg).2 =
        { o with
          strokeLineDash :=
            if e.strokeStyle = StrokeStyle.dotted
            then some [1.5, 6 + (e.strokeWidth - 1) - 1] else none
          roughness := some (min 1 (o.roughness.getD 0)) }) ∧
    ((ah = Arrowhead.dot ∨ ah = Arrowhead.circle ∨
      ah = Arrowhead.circle_outline ∨ ah = Arrowhead.triangle ∨
      ah = Arrowhead.triangle_outline ∨ ah = Arrowhead.diamond ∨
      ah = Arrowhead.diamond_outline) →
      (getArrowheadShapes resolve e pos ah o cbg).2 =
        { o with strokeLineDash := none }) ∧
    (ah = Arrowhead.crowfoot_one →
      (getArrowheadShapes resolve e pos ah o cbg).2 = o) := by
  refine ⟨?_, ?_, ?_⟩
  · rintro (rfl | rfl | rfl | rfl) <;>
    · rw [getArrowheadShapes, h]
      by_cases hd : e.strokeStyle = StrokeStyle.dotted <;>
        simp [hd, getDashArrayDotted]
  · rintro (rfl | rfl | rfl | rfl | rfl | rfl | rfl) <;>
    · rw [getArrowheadShapes, h]
  · rintro rfl
    rw [getArrowheadShapes, h]

/-- C2: evaluation of the 3D shape generator at a filled cube (100 by 80,
depth 40, light-blue background, no roundness). All 6 faces are emitted as
separate filled polygons and every face precedes every edge, but the faces
appear in the order top, front, right, left, bottom, back: the successive
unshift calls reverse the back-to-front sequence the code comment claims,
so the back face is the last face in the list (painted on top), not the
first. -/
theorem generate3DRectangularShapes_face_order :
    generate3DRectangularShapes sampleCube true =
      BoxPrim.polygon [vget sampleCubeVertices 4, vget sampleCubeVertices 5,
        vget sampleCubeVertices 6, vget sampleCubeVertices 7]
        (box3DFaceFillOptions sampleCube) ::
      BoxPrim.polygon [vget sampleCubeVertices 0, vget sampleCubeVertices 1,
        vget sampleCubeVertices 5, vget sampleCubeVertices 4]
        (box3DFaceFillOptions sampleCube) ::
      BoxPrim.polygon [vget sampleCubeVertices 1, vget sampleCubeVertices 2,
        vget sampleCubeVertices 6, vget sampleCubeVertices 5]
        (box3DFaceFillOptions sampleCube) ::
      BoxPrim.polygon [vget sampleCubeVertices 0, vget sampleCubeVertices 4,
        vget sampleCubeVertices 7, vget sampleCubeVertices 3]
        (box3DFaceFillOptions sampleCube) ::
      BoxPrim.polygon [vget sampleCubeVertices 0, vget sampleCubeVertices 3,
        vget sampleCubeVertices 2, vget sampleCubeVertices 1]
        (box3DFaceFillOptions sampleCube) ::
      BoxPrim.polygon [vget sampleCubeVertices 3, vget sampleCubeVertices 7,
        vget sampleCubeVertices 6, vget sampleCubeVertices 2]
        (box3DFaceFillOptions sampleCube) ::
      box3DEdges.map (fun p =>
        BoxPrim.line (vget sampleCubeVertices p.1).1
          (vget sampleCubeVertices p.1).2
          (vget sampleCubeVertices p.2).1 (vget sampleCubeVertices p.2).2
          (box3DOptions sampleCube)) := by
  rw [generate3DRectangularShapes]
  norm_num [sampleCube, sampleCubeVertices, isTransparent]
  intro h
  exact absurd (h (by decide)) (by decide)

/-- C8: for width 100, height 80 and requested depth 40, the 3D box
projector produces exactly 8 vertices and every one of them lies within
the element's bounding box, 0 to 100 horizontally and 0 to 80
vertically. -/
theorem box3D_vertices_in_bounds :
    (box3DCenteredVertices 100 80 40).length = 8 ∧
    (box3DCenteredVertices 100 80 40).Forall
      (fun v => 0 ≤ v.1 ∧ v.1 ≤ 100 ∧ 0 ≤ v.2 ∧ v.2 ≤ 80) := by
  have hs0 : (0 : ℝ) ≤ Real.sqrt 3 := Real.sqrt_nonneg 3
  have hs2 : Real.sqrt 3 ^ 2 = 3 := Real.sq_sqrt (by norm_num)
  have hslt : Real.sqrt 3 < 2 := by nlinarith
  have hsgt : (1 : ℝ) < Real.sqrt 3 := by nlinarith
  have h100 : (50 : ℝ) ≤ 100 / (Real.sqrt 3 / 2) := by
    rw [le_div_iff₀ (by positivity)]
    nlinarith
  have h80 : (50 : ℝ) ≤ (80 : ℝ) / 0.5 := by norm_num
  have hX : (40 : ℝ) ≤
      min ((100 : ℝ) / (Real.sqrt 3 / 2)) ((80 : ℝ) / 0.5) * 0.8 := by
    have hm : (50 : ℝ) ≤ min ((100 : ℝ) / (Real.sqrt 3 / 2)) ((80 : ℝ) / 0.5) :=
      le_min h100 h80
    nlinarith
  have heff : max (-(min ((100 : ℝ) / (Real.sqrt 3 / 2)) ((80 : ℝ) / 0.5) * 0.8))
      (min (min ((100 : ℝ) / (Real.sqrt 3 / 2)) ((80 : ℝ) / 0.5) * 0.8) 40)
        = 40 := by
    rw [min_eq_right hX, max_eq_right (by linarith)]
  rw [box3DCenteredVertices]
  rw [heff]
  rw [show |(40 : ℝ)| = 40 from abs_of_nonneg (by norm_num)]
  rw [if_pos (by norm_num : (40 : ℝ) ≥ 0)]
  refine ⟨by simp, ?_⟩
  simp only [List.Forall]
  norm_num
  repeat' apply And.intro
  all_goals nlinarith [hs0, hs2, hslt, hsgt]

/-- C5 witness for the amended claim: a solid-stroke arrow with the default
arrow wing head has its dash cleared and roughness clamped to 1 in place. -/
theorem getArrowheadShapes_mutation_amended_witness :
    (getArrowheadShapes (fun _ _ _ => some [0, 0, 10, 10, 20, 20])
      { etype := ElementType.arrow } "end" Arrowhead.arrow
      { roughness := some 2, strokeLineDash := some [8, 10] } "#ffffff").2 =
      { roughness := some 1, strokeLineDash := none } := by
  have := (getArrowheadShapes_mutation_amended
    (fun _ _ _ => some [0, 0, 10, 10, 20, 20])
    { etype := ElementType.arrow } "end"
    { roughness := some 2, strokeLineDash := some [8, 10] } "#ffffff"
    Arrowhead.arrow [0, 0, 10, 10, 20, 20] rfl).1
    (Or.inr (Or.inl rfl))
  rw [this]
  rfl

/-- Distance from an axis-aligned offset point back to the base point is
the (nonnegative) offset, in each of the four directions. -/
theorem pointDistance_axis_offset (x y c : ℝ) (hc : 0 ≤ c) :
    pointDistance (x - c, y) (x, y) = c ∧
    pointDistance (x + c, y) (x, y) = c ∧
    pointDistance (x, y - c) (x, y) = c ∧
    pointDistance (x, y + c) (x, y) = c := by
  refine ⟨?_, ?_, ?_, ?_⟩ <;>
  · rw [pointDistance]
    ring_nf
    rw [Real.sqrt_sq hc]

/-- C6: every interior vertex of the elbow polyline produces a triple of
subpoints whose middle entry is the vertex and whose inset points sit at
distance min (radius, distanceToNext / 2, distanceToPrev / 2) from the
vertex; in particular the inset is the radius when both half-distances are
at least the radius, and 0 when an adjacent segment has length 0. -/
theorem elbowCornerSubpoints_inset_spec (radius : ℝ)
    (prev point next : ℝ × ℝ) (hr : 0 ≤ radius) :
    ∃ a b, elbowCornerSubpoints radius prev point next = [a, point, b] ∧
      pointDistance a point =
        min radius (min (pointDistance point next / 2)
          (pointDistance point prev / 2)) ∧
      pointDistance b point =
        min radius (min (pointDistance point next / 2)
          (pointDistance point prev / 2)) ∧
      (pointDistance point next = 0 ∨ pointDistance point prev = 0 →
        min radius (min (pointDistance point next / 2)
          (pointDistance point prev / 2)) = 0) ∧
      (radius ≤ pointDistance point next / 2 →
        radius ≤ pointDistance point prev / 2 →
        min radius (min (pointDistance point next / 2)
          (pointDistance point prev / 2)) = radius) := by
  have hd1 : 0 ≤ pointDistance point next := Real.sqrt_nonneg _
  have hd2 : 0 ≤ pointDistance point prev := Real.sqrt_nonneg _
  have hc : 0 ≤ min radius (min (pointDistance point next / 2)
      (pointDistance point prev / 2)) :=
    le_min hr (le_min (by linarith) (by linarith))
  refine ⟨_, _, rfl, ?_, ?_, ?_, ?_⟩
  · obtain ⟨h1, h2, h3, h4⟩ := pointDistance_axis_offset point.1 point.2 _ hc
    split_ifs <;> assumption
  · obtain ⟨h1, h2, h3, h4⟩ := pointDistance_axis_offset point.1 point.2 _ hc
    split_ifs <;> assumption
  · rintro (h0 | h0)
    · refine le_antisymm ?_ hc
      calc min radius (min (pointDistance point next / 2)
            (pointDistance point prev / 2)) ≤
          min (pointDistance point next / 2) (pointDistance point prev / 2) :=
            min_le_right _ _
        _ ≤ pointDistance point next / 2 := min_le_left _ _
        _ = 0 := by rw [h0]; norm_num
    · refine le_antisymm ?_ hc
      calc min radius (min (pointDistance point next / 2)
            (pointDistance point prev / 2)) ≤
          min (pointDistance point next / 2) (pointDistance point prev / 2) :=
            min_le_right _ _
        _ ≤ pointDistance point prev / 2 := min_le_right _ _
        _ = 0 := by rw [h0]; norm_num
  · intro hn hp
    exact min_eq_left (le_min hn hp)

/-- C6 witness: a 90 degree turn with radius 16 and both adjacent segments
of length 100 yields inset points at distance exactly 16 from the vertex. -/
theorem elbowCornerSubpoints_inset_spec_witness :
    (0 : ℝ) ≤ 16 ∧
    ∃ a b, elbowCornerSubpoints 16 (0, 0) (100, 0) (100, 100) =
        [a, ((100 : ℝ), (0 : ℝ)), b] ∧
      pointDistance a (100, 0) =
        min 16 (min (pointDistance (100, 0) (100, 100) / 2)
          (pointDistance (100, 0) (0, 0) / 2)) ∧
      pointDistance b (100, 0) =
        min 16 (min (pointDistance (100, 0) (100, 100) / 2)
          (pointDistance (100, 0) (0, 0) / 2)) ∧
      (pointDistance (100, 0) (100, 100) = 0 ∨
          pointDistance (100, 0) (0, 0) = 0 →
        min 16 (min (pointDistance (100, 0) (100, 100) / 2)
          (pointDistance (100, 0) (0, 0) / 2)) = 0) ∧
      ((16 : ℝ) ≤ pointDistance (100, 0) (100, 100) / 2 →
        (16 : ℝ) ≤ pointDistance (100, 0) (0, 0) / 2 →
        min 16 (min (pointDistance (100, 0) (100, 100) / 2)
          (pointDistance (100, 0) (0, 0) / 2)) = 16) :=
  ⟨by norm_num,
   elbowCornerSubpoints_inset_spec 16 (0, 0) (100, 0) (100, 100) (by norm_num)⟩

/-- C4: an elbow arrow one of whose points has a coordinate of magnitude
beyond one million renders as empty body geometry with the diagnostic
logged; the branch is a total function of the element, so no exception is
possible on such input. -/
theorem generateElbowArrowBody_extreme_spec (e : Element)
    (h : ∃ p ∈ e.points, 1000000 < |p.1| ∨ 1000000 < |p.2|) :
    (generateElbowArrowBody e).1 = [] ∧
    (generateElbowArrowBody e).2 = true := by
  obtain ⟨p, hmem, hp⟩ := h
  have hne : e.points.length ≠ 0 := by
    intro hlen
    rw [List.length_eq_zero] at hlen
    rw [hlen] at hmem
    exact absurd hmem (List.not_mem_nil p)
  have hall : e.points.all (fun p =>
      decide (|p.1| ≤ 1000000) && decide (|p.2| ≤ 1000000)) = false := by
    rw [List.all_eq_false]
    refine ⟨p, hmem, ?_⟩
    rcases hp with hp | hp <;> simp [hp, not_le.mpr hp]
  rw [generateElbowArrowBody]
  simp only [hne, ne_eq, not_false_eq_true, if_true, hall]
  norm_num

/-- C4 witness: an elbow arrow with a point at x = 2000000 renders as an
empty body with the diagnostic logged. -/
theorem generateElbowArrowBody_extreme_spec_witness :
    (generateElbowArrowBody
        { etype := ElementType.arrow, elbowed := true,
          points := [(0, 0), (2000000, 0)] }).1 = [] ∧
    (generateElbowArrowBody
        { etype := ElementType.arrow, elbowed := true,
          points := [(0, 0), (2000000, 0)] }).2 = true :=
  generateElbowArrowBody_extreme_spec
    { etype := ElementType.arrow, elbowed := true,
      points := [(0, 0), (2000000, 0)] }
    ⟨(2000000, 0), by decide, Or.inl (by norm_num)⟩

end Drawer
